import Mathlib

/-!
# A verification of the `Blackboard` store (`include/behaviortree_cpp/blackboard.h`)

Shallow embedding of the hierarchical typed key-value store.  A `Blackboard`
holds a local `storage` table mapping string keys to entries, a `remap` table
redirecting local keys to parent-scope keys, and a weak reference to an
optional parent store.  Machine-level details that the claims do not touch
(the mutex, iterator identity) are not modelled; everything else follows the
source line by line.

Runtime types (`std::type_info` pointers compared by identity) are modelled
as natural-number identifiers; type-erased payloads as natural numbers.
-/

set_option autoImplicit false

namespace BT

/-- Opaque runtime type identifier: stands for a `const std::type_info*`
compared by pointer identity in the source. -/
abbrev TypeId := Nat

/-- The type-erased value holder `SafeAny::Any`: either empty
(default-constructed, as in a fresh `Entry`) or a payload tagged with the
runtime type it was constructed from. -/
structure Any where
  val : Option (TypeId × Nat)
deriving DecidableEq, Repr

/-- A default-constructed (empty) `SafeAny::Any`. -/
def Any.empty : Any := ⟨none⟩

/-- Errors surfaced by the store: `LogicError` on a type-lock conflict
(carrying the declared and the attempted type), the cast-mismatch failure of
the value container, and `RuntimeError("Missing key")` from the throwing
getter. -/
inductive BTError where
  | typeConflict (declared attempted : TypeId)
  | castMismatch (stored : Option TypeId) (requested : TypeId)
  | missingKey
deriving DecidableEq, Repr

/-- Modelled from the spec: the external type-erased container's
`cast-to<T>` (the repository's `utils/safe_any.hpp` is not under `src/`).
Per the spec it returns the stored value when the requested type is
compatible and fails with a cast-mismatch error otherwise; compatibility is
modelled as identity of the runtime type identifiers (the numeric-coercion
leniency is implementation-defined by that container and not modelled). -/
def Any.cast (a : Any) (ty : TypeId) : Except BTError Nat :=
  match a.val with
  | none => .error (.castMismatch none ty)
  | some (t, p) => if t = ty then .ok p else .error (.castMismatch (some t) ty)

/-- `Blackboard::Entry`: a value holder (default-constructed, i.e. empty,
until first local write) and the optional locked port type. -/
structure Entry where
  value : Any := Any.empty
  locked_port_type : Option TypeId := none
deriving DecidableEq, Repr

/-- First-match lookup in an association list, the model of
`std::unordered_map::find` (the tables built by the operations never hold a
key twice, so first-match agrees with map semantics). -/
def lookupKey {β : Type} (key : String) : List (String × β) → Option β
  | [] => none
  | (k, e) :: rest => if k = key then some e else lookupKey key rest

/-- A `Blackboard`.  The weak parent pointer `parent_bb_` has three states:
no parent was given at construction (`root`), the parent was destroyed so
`parent_bb_.lock()` fails (`expired`), or the parent is alive (`child`). -/
inductive Blackboard where
  | root (storage : List (String × Entry)) (remap : List (String × String))
  | expired (storage : List (String × Entry)) (remap : List (String × String))
  | child (storage : List (String × Entry)) (remap : List (String × String))
      (parent : Blackboard)
deriving DecidableEq, Repr

/-- The local `storage_` table. -/
def Blackboard.storage : Blackboard → List (String × Entry)
  | .root st _ => st
  | .expired st _ => st
  | .child st _ _ => st

/-- The local `internal_to_external_` remapping table. -/
def Blackboard.remap : Blackboard → List (String × String)
  | .root _ rm => rm
  | .expired _ rm => rm
  | .child _ rm _ => rm

/-- `parent_bb_.lock()`: the parent when it is still alive, `none` for a
root or when the parent has been destroyed. -/
def Blackboard.lockParent : Blackboard → Option Blackboard
  | .root _ _ => none
  | .expired _ _ => none
  | .child _ _ p => some p

/-- Replace the local `storage_` table, keeping remap and parent. -/
def Blackboard.withStorage : Blackboard → List (String × Entry) → Blackboard
  | .root _ rm, st => .root st rm
  | .expired _ rm, st => .expired st rm
  | .child _ rm p, st => .child st rm p

/-- `Blackboard::create`: factory taking an optional parent. -/
def Blackboard.create : Option Blackboard → Blackboard
  | none => .root [] []
  | some p => .child [] [] p

/-- `Blackboard::getAny`: if the parent is alive and the key is remapped,
recurse into the parent under the external name; otherwise return the local
entry's value holder (`nullptr`, i.e. `none`, when the key is absent). -/
def getAny : Blackboard → String → Option Any
  | .root st _, key => (lookupKey key st).map Entry.value
  | .expired st _, key => (lookupKey key st).map Entry.value
  | .child st rm p, key =>
    match lookupKey key rm with
    | some ext => getAny p ext
    | none => (lookupKey key st).map Entry.value

/-- `Blackboard::get(key, value)` (non-throwing variant): resolve through
`getAny`; `.ok none` models `found = false`, `.ok (some v)` models
`found = true` with the cast value written to the out-parameter, and
`.error` models the cast throwing. -/
def get (bb : Blackboard) (key : String) (ty : TypeId) :
    Except BTError (Option Nat) :=
  match getAny bb key with
  | none => .ok none
  | some a =>
    match a.cast ty with
    | .ok v => .ok (some v)
    | .error e => .error e

/-- `Blackboard::get(key)` (throwing variant): calls the non-throwing `get`
and raises `RuntimeError("Missing key")` when `found` is false. -/
def getOrFail (bb : Blackboard) (key : String) (ty : TypeId) :
    Except BTError Nat :=
  match get bb key ty with
  | .ok none => .error .missingKey
  | .ok (some v) => .ok v
  | .error e => .error e

/-- The first half of `Blackboard::set`: look the key up in the local
storage; if an entry is there, check its locked type against the type being
written (throwing the `LogicError` on a mismatch); otherwise insert a
default `Entry()` with no type lock.  Returns the possibly extended
storage. -/
def checkAndInsert (st : List (String × Entry)) (key : String)
    (ty : TypeId) : Except BTError (List (String × Entry)) :=
  match lookupKey key st with
  | some e =>
    match e.locked_port_type with
    | some lt => if lt = ty then .ok st else .error (.typeConflict lt ty)
    | none => .ok st
  | none => .ok (st ++ [(key, {})])

/-- Write a value into the entry the iterator `it` points at
(`it->second.value = SafeAny::Any(value)`), leaving the locked type as it
was. -/
def updateValue : List (String × Entry) → String → Any →
    List (String × Entry)
  | [], _, _ => []
  | (k, e) :: rest, key, a =>
    if k = key then (k, { e with value := a }) :: rest
    else (k, e) :: updateValue rest key a

/-- `Blackboard::set`: check/establish the local entry (never its lock),
then, if the parent is alive and the key is remapped, delegate the value
write to the parent under the external name and return; otherwise store the
value into the local entry.  The returned pair is the store after the call
together with the error thrown, if any (on a throw the mutations already
performed persist, as they do in the C++ object). -/
def set : Blackboard → String → TypeId → Nat → Blackboard × Option BTError
  | .root st rm, key, ty, v =>
    match checkAndInsert st key ty with
    | .error e => (.root st rm, some e)
    | .ok st1 => (.root (updateValue st1 key ⟨some (ty, v)⟩) rm, none)
  | .expired st rm, key, ty, v =>
    match checkAndInsert st key ty with
    | .error e => (.expired st rm, some e)
    | .ok st1 => (.expired (updateValue st1 key ⟨some (ty, v)⟩) rm, none)
  | .child st rm p, key, ty, v =>
    match checkAndInsert st key ty with
    | .error e => (.child st rm p, some e)
    | .ok st1 =>
      match lookupKey key rm with
      | some ext =>
        let r := set p ext ty v
        (.child st1 rm r.1, r.2)
      | none => (.child (updateValue st1 key ⟨some (ty, v)⟩) rm p, none)

/-- `Blackboard::setPortType`: purely local.  If the key is absent, insert
an `Entry(new_type)`; if it is present with a different locked type, throw
the `LogicError`; otherwise (same locked type, or no locked type at all)
return leaving the entry exactly as it was. -/
def setPortType (bb : Blackboard) (key : String) (new_type : TypeId) :
    Blackboard × Option BTError :=
  match lookupKey key bb.storage with
  | none =>
    (bb.withStorage (bb.storage ++ [(key, { locked_port_type := some new_type })]),
      none)
  | some e =>
    match e.locked_port_type with
    | some old =>
      if old = new_type then (bb, none)
      else (bb, some (.typeConflict old new_type))
    | none => (bb, none)

/-- `Blackboard::portType`: purely local; the locked type of the local
entry, or `none` when the key is unknown or not locked. -/
def portType (bb : Blackboard) (key : String) : Option TypeId :=
  match lookupKey key bb.storage with
  | none => none
  | some e => e.locked_port_type

/-- The local entry for `key` either does not exist or carries no locked
type. -/
def entryUnlocked (st : List (String × Entry)) (key : String) : Bool :=
  match lookupKey key st with
  | none => true
  | some e => e.locked_port_type.isNone

/-- No entry consulted when resolving `key` (the local one, and on a remap
hit the whole chain through the live parent) carries a locked type.  This is
the state of a key whose type was never passed to `setPortType` anywhere
along its resolution. -/
def unlockedAlong : Blackboard → String → Bool
  | .root st _, key => entryUnlocked st key
  | .expired st _, key => entryUnlocked st key
  | .child st rm p, key =>
    entryUnlocked st key &&
      (match lookupKey key rm with
       | some ext => unlockedAlong p ext
       | none => true)

/-- No entry exists for `key` locally, nor (on a remap hit) anywhere along
the resolution chain through the live parent: the state of a key on which
no write and no type declaration was ever performed. -/
def untouched : Blackboard → String → Bool
  | .root st _, key => (lookupKey key st).isNone
  | .expired st _, key => (lookupKey key st).isNone
  | .child st rm p, key =>
    (lookupKey key st).isNone &&
      (match lookupKey key rm with
       | some ext => untouched p ext
       | none => true)

/-! ## Helper lemmas -/

theorem lookupKey_append_self {β : Type} (st : List (String × β)) (key : String)
    (b : β) (h : lookupKey key st = none) :
    lookupKey key (st ++ [(key, b)]) = some b := by
  induction st with
  | nil => simp [lookupKey]
  | cons hd tl ih =>
    obtain ⟨k, e⟩ := hd
    by_cases hk : k = key
    · simp [lookupKey, hk] at h
    · simp [lookupKey, hk] at h ⊢
      exact ih h

theorem lookupKey_updateValue_self (st : List (String × Entry)) (key : String)
    (a : Any) :
    lookupKey key (updateValue st key a) =
      (lookupKey key st).map (fun e => { e with value := a }) := by
  induction st with
  | nil => simp [lookupKey, updateValue]
  | cons hd tl ih =>
    obtain ⟨k, e⟩ := hd
    by_cases hk : k = key
    · simp [lookupKey, updateValue, hk]
    · simp [lookupKey, updateValue, hk, ih]

theorem lookupKey_updateValue_locked (st : List (String × Entry)) (key : String)
    (a : Any) :
    (lookupKey key (updateValue st key a)).map Entry.locked_port_type =
      (lookupKey key st).map Entry.locked_port_type := by
  rw [lookupKey_updateValue_self]
  cases lookupKey key st <;> rfl

theorem checkAndInsert_mem {st st1 : List (String × Entry)} {key : String}
    {ty : TypeId} (h : checkAndInsert st key ty = .ok st1) :
    ∃ e, lookupKey key st1 = some e := by
  cases hl : lookupKey key st with
  | none =>
    simp only [checkAndInsert, hl] at h
    simp at h
    exact ⟨⟨Any.empty, none⟩, h ▸ lookupKey_append_self st key ⟨Any.empty, none⟩ hl⟩
  | some e =>
    simp only [checkAndInsert, hl] at h
    cases hlp : e.locked_port_type with
    | none => simp [hlp] at h; exact ⟨e, h ▸ hl⟩
    | some lt =>
      rw [hlp] at h
      by_cases heq : lt = ty
      · simp [heq] at h; exact ⟨e, h ▸ hl⟩
      · simp [heq] at h

theorem checkAndInsert_of_unlocked {st : List (String × Entry)} {key : String}
    (ty : TypeId) (h : entryUnlocked st key = true) :
    ∃ st1, checkAndInsert st key ty = .ok st1 ∧
      ∃ e, lookupKey key st1 = some e ∧ e.locked_port_type = none := by
  unfold entryUnlocked at h
  cases hl : lookupKey key st with
  | none =>
    refine ⟨st ++ [(key, ⟨Any.empty, none⟩)], ?_, ⟨Any.empty, none⟩,
      lookupKey_append_self st key ⟨Any.empty, none⟩ hl, rfl⟩
    simp [checkAndInsert, hl]
  | some e =>
    rw [hl] at h
    simp [Option.isNone_iff_eq_none] at h
    exact ⟨st, by simp [checkAndInsert, hl, h], e, hl, h⟩

/-- After a `set` that did not throw, resolving the same key finds exactly
the value just written (at whatever store the remap routing stored it in). -/
theorem set_getAny : ∀ (bb : Blackboard) (key : String) (ty : TypeId) (v : Nat),
    (set bb key ty v).2 = none →
    getAny (set bb key ty v).1 key = some ⟨some (ty, v)⟩ := by
  intro bb
  induction bb with
  | root st rm =>
    intro key ty v h
    cases hc : checkAndInsert st key ty with
    | error e => simp [set, hc] at h
    | ok st1 =>
      obtain ⟨e, he⟩ := checkAndInsert_mem hc
      simp [set, hc, getAny, lookupKey_updateValue_self, he]
  | expired st rm =>
    intro key ty v h
    cases hc : checkAndInsert st key ty with
    | error e => simp [set, hc] at h
    | ok st1 =>
      obtain ⟨e, he⟩ := checkAndInsert_mem hc
      simp [set, hc, getAny, lookupKey_updateValue_self, he]
  | child st rm p ih =>
    intro key ty v h
    cases hc : checkAndInsert st key ty with
    | error e => simp [set, hc] at h
    | ok st1 =>
      cases hr : lookupKey key rm with
      | some ext =>
        simp [set, hc, hr] at h ⊢
        simp [getAny, hr]
        exact ih ext ty v h
      | none =>
        obtain ⟨e, he⟩ := checkAndInsert_mem hc
        simp [set, hc, hr, getAny, lookupKey_updateValue_self, he]

/-- After a `set` that did not throw, a typed `get` of the same key at the
written type finds the written value. -/
theorem set_get (bb : Blackboard) (key : String) (ty : TypeId) (v : Nat)
    (h : (set bb key ty v).2 = none) :
    get (set bb key ty v).1 key ty = .ok (some v) := by
  have hg := set_getAny bb key ty v h
  simp [get, hg, Any.cast]

theorem untouched_local {bb : Blackboard} {key : String}
    (h : untouched bb key = true) : lookupKey key bb.storage = none := by
  cases bb with
  | root st rm =>
    simpa [untouched, Option.isNone_iff_eq_none, Blackboard.storage] using h
  | expired st rm =>
    simpa [untouched, Option.isNone_iff_eq_none, Blackboard.storage] using h
  | child st rm p =>
    simp only [untouched, Bool.and_eq_true] at h
    simpa [Option.isNone_iff_eq_none, Blackboard.storage] using h.1

theorem untouched_getAny : ∀ (bb : Blackboard) (key : String),
    untouched bb key = true → getAny bb key = none := by
  intro bb
  induction bb with
  | root st rm =>
    intro key h
    simp only [untouched, Option.isNone_iff_eq_none] at h
    simp [getAny, h]
  | expired st rm =>
    intro key h
    simp only [untouched, Option.isNone_iff_eq_none] at h
    simp [getAny, h]
  | child st rm p ih =>
    intro key h
    simp only [untouched, Bool.and_eq_true] at h
    cases hr : lookupKey key rm with
    | some ext =>
      rw [hr] at h
      simp [getAny, hr]
      exact ih ext h.2
    | none =>
      simp only [Option.isNone_iff_eq_none] at h
      simp [getAny, hr, h.1]

theorem cast_error_ne_missingKey {a : Any} {ty : TypeId} {e : BTError}
    (h : a.cast ty = .error e) : e ≠ .missingKey := by
  unfold Any.cast at h
  cases hv : a.val with
  | none =>
    rw [hv] at h
    simp at h
    simp [← h]
  | some tp =>
    obtain ⟨t, p⟩ := tp
    rw [hv] at h
    by_cases ht : t = ty
    · simp [ht] at h
    · simp [ht] at h
      simp [← h]

/-! ## The claims -/

/-- Claim C1, counterexample: on a store whose entry for `"k"` exists (via a
prior write) with no locked type, `setPortType "k" 0` succeeds but does not
establish the lock — `portType` still returns `none`, not `some 0`. -/
theorem C1_counterexample :
    lookupKey "k" ((set (.root [] []) "k" 0 7).1).storage =
      some ⟨⟨some (0, 7)⟩, none⟩ ∧
    (setPortType ((set (.root [] []) "k" 0 7).1) "k" 0).2 = none ∧
    portType ((setPortType ((set (.root [] []) "k" 0 7).1) "k" 0).1) "k" =
      none := by
  decide

/-- Claim C1, as amended: if `setPortType key ty` is called on a store whose
entries table already contains an entry for `key` with no locked type, the
call succeeds but is a no-op — the store is unchanged and the entry's
locked type stays unset, so `portType` still returns `none` (the lock is
only established when `setPortType` itself creates the entry). -/
theorem C1_setPortType_unlocked_noop (bb : Blackboard) (key : String)
    (e : Entry) (ty : TypeId)
    (hl : lookupKey key bb.storage = some e)
    (hu : e.locked_port_type = none) :
    setPortType bb key ty = (bb, none) ∧
    portType (setPortType bb key ty).1 key = none := by
  have h1 : setPortType bb key ty = (bb, none) := by
    simp [setPortType, hl, hu]
  exact ⟨h1, by rw [h1]; simp [portType, hl, hu]⟩

/-- Claim C1, witness for the amended theorem at a concrete store. -/
theorem C1_witness :
    setPortType ((set (.root [] []) "k" 0 7).1) "k" 5 =
      ((set (.root [] []) "k" 0 7).1, none) :=
  (C1_setPortType_unlocked_noop ((set (.root [] []) "k" 0 7).1) "k"
    ⟨⟨some (0, 7)⟩, none⟩ 5 (by decide) rfl).1

/-- Claim C2, counterexample: a write through a live remap succeeds, yet
the child's local entries table does gain an entry for the written key (an
empty, unlocked one), contradicting "neither consults nor mutates the local
entries table". -/
theorem C2_counterexample :
    (set (Blackboard.child [] [("a", "b")] (.root [] [])) "a" 0 5).2 =
      none ∧
    lookupKey "a"
      ((set (Blackboard.child [] [("a", "b")] (.root [] [])) "a" 0 5).1).storage ≠
      none := by
  decide

/-- Claim C2, as amended: for a store with a live parent and a remapped
key, `set` first consults the local entries table (checking the entry's
locked type and inserting a default entry with empty value and no lock when
none exists), and then delegates the value write entirely to the parent
under the remapped key; the local entry's value holder is never written. -/
theorem C2_set_remapped_delegates (st : List (String × Entry))
    (rm : List (String × String)) (p : Blackboard) (key ext : String)
    (ty : TypeId) (v : Nat) (st1 : List (String × Entry))
    (hr : lookupKey key rm = some ext)
    (hc : checkAndInsert st key ty = .ok st1) :
    set (.child st rm p) key ty v =
      (.child st1 rm (set p ext ty v).1, (set p ext ty v).2) ∧
    (lookupKey key st = none → st1 = st ++ [(key, ⟨Any.empty, none⟩)]) ∧
    (∀ e, lookupKey key st = some e → st1 = st) := by
  refine ⟨by simp [set, hc, hr], ?_, ?_⟩
  · intro hnone
    simp [checkAndInsert, hnone] at hc
    exact hc.symm
  · intro e he
    simp only [checkAndInsert, he] at hc
    cases hlp : e.locked_port_type with
    | none => simp [hlp] at hc; exact hc.symm
    | some lt =>
      rw [hlp] at hc
      by_cases hlt : lt = ty
      · simp [hlt] at hc; exact hc.symm
      · simp [hlt] at hc

/-- Claim C2, witness for the amended theorem at a concrete store. -/
theorem C2_witness :
    set (Blackboard.child [] [("a", "b")] (.root [] [])) "a" 0 5 =
      (.child [("a", ⟨Any.empty, none⟩)] [("a", "b")]
        (set (Blackboard.root [] []) "b" 0 5).1,
        (set (Blackboard.root [] []) "b" 0 5).2) :=
  (C2_set_remapped_delegates [] [("a", "b")] (.root [] []) "a" "b" 0 5
    [("a", ⟨Any.empty, none⟩)] (by decide) rfl).1

/-- Claim C3, counterexample: after `set "k"` at type `1`, the declaration
`setPortType "k" 2` succeeds without establishing any lock, and a
subsequent write at type `1 ≠ 2` also succeeds — no type-conflict error is
raised and `portType` reports `none`, not `some 2`. -/
theorem C3_counterexample :
    (setPortType ((set (.root [] []) "k" 1 7).1) "k" 2).2 = none ∧
    portType ((setPortType ((set (.root [] []) "k" 1 7).1) "k" 2).1) "k" =
      none ∧
    (set ((setPortType ((set (.root [] []) "k" 1 7).1) "k" 2).1) "k" 1 8).2 =
      none := by
  decide

/-- Claim C3, as amended: once a declaration has actually established the
lock — that is, `portType key` returns `some T` — any subsequent write at a
type `U ≠ T` fails with the type-conflict error carrying both types, the
store is left unchanged, and the locked type afterwards is still `T`. -/
theorem C3_set_conflict_of_locked (bb : Blackboard) (key : String)
    (T U : TypeId) (v : Nat)
    (hT : portType bb key = some T) (hU : U ≠ T) :
    set bb key U v = (bb, some (.typeConflict T U)) ∧
    portType (set bb key U v).1 key = some T := by
  have hl : ∃ e, lookupKey key bb.storage = some e ∧
      e.locked_port_type = some T := by
    unfold portType at hT
    cases hlk : lookupKey key bb.storage with
    | none => rw [hlk] at hT; simp at hT
    | some e => rw [hlk] at hT; exact ⟨e, rfl, hT⟩
  obtain ⟨e, hlk, hlp⟩ := hl
  have hc : checkAndInsert bb.storage key U =
      .error (.typeConflict T U) := by
    have hTU : ¬ T = U := fun h => hU h.symm
    simp [checkAndInsert, hlk, hlp, hTU]
  have hset : set bb key U v = (bb, some (.typeConflict T U)) := by
    cases bb with
    | root st rm =>
      simp only [Blackboard.storage] at hc
      simp [set, hc]
    | expired st rm =>
      simp only [Blackboard.storage] at hc
      simp [set, hc]
    | child st rm p =>
      simp only [Blackboard.storage] at hc
      simp [set, hc]
  exact ⟨hset, by rw [hset]; simp [portType, hlk, hlp]⟩

/-- Claim C3, witness for the amended theorem: declare `"k"` at type `2` on
a fresh store (which establishes the lock), then a write at type `1`
conflicts. -/
theorem C3_witness :
    set ((setPortType (.root [] []) "k" 2).1) "k" 1 9 =
      ((setPortType (.root [] []) "k" 2).1, some (.typeConflict 2 1)) :=
  (C3_set_conflict_of_locked ((setPortType (.root [] []) "k" 2).1) "k" 2 1 9
    (by decide) (by decide)).1

/-- Claim C4: remap transparency.  If the child's remap maps `a` to `b` and
the parent is alive, then after a successful `set a v` on the child the
typed `get a` on the child returns the value (routed to the parent), and
the typed `get b` on the (updated) parent returns it as well. -/
theorem C4_remap_transparency (st : List (String × Entry))
    (rm : List (String × String)) (p : Blackboard) (a b : String)
    (ty : TypeId) (v : Nat)
    (hr : lookupKey a rm = some b)
    (hok : (set (.child st rm p) a ty v).2 = none) :
    get ((set (.child st rm p) a ty v).1) a ty = .ok (some v) ∧
    ∃ p', ((set (.child st rm p) a ty v).1).lockParent = some p' ∧
      get p' b ty = .ok (some v) := by
  cases hc : checkAndInsert st a ty with
  | error e => simp [set, hc] at hok
  | ok st1 =>
    have hps : (set p b ty v).2 = none := by
      simpa [set, hc, hr] using hok
    refine ⟨set_get _ a ty v hok, (set p b ty v).1, ?_, ?_⟩
    · simp [set, hc, hr, Blackboard.lockParent]
    · have hg := set_getAny p b ty v hps
      simp [get, hg, Any.cast]

/-- Claim C4, witness: the spec's scenario with `"goal"` remapped to
`"target_goal"` (the double `3.5` is modelled by type id `0`, payload
`35`). -/
theorem C4_witness :
    get ((set (Blackboard.child [] [("goal", "target_goal")] (.root [] []))
        "goal" 0 35).1) "goal" 0 = .ok (some 35) ∧
    ∃ p', ((set (Blackboard.child [] [("goal", "target_goal")] (.root [] []))
        "goal" 0 35).1).lockParent = some p' ∧
      get p' "target_goal" 0 = .ok (some 35) :=
  C4_remap_transparency [] [("goal", "target_goal")] (.root [] [])
    "goal" "target_goal" 0 35 (by decide) rfl

/-- Claim C5: parent fallback.  A store whose parent reference has expired
behaves on reads and writes of every key — remapped or not — exactly like a
root store with the same local tables: `getAny` and `get` agree, and `set`
produces the same error and the same resulting storage. -/
theorem C5_expired_behaves_as_root (st : List (String × Entry))
    (rm : List (String × String)) (key : String) (ty : TypeId) (v : Nat) :
    getAny (.expired st rm) key = getAny (.root st rm) key ∧
    get (.expired st rm) key ty = get (.root st rm) key ty ∧
    (set (.expired st rm) key ty v).2 = (set (.root st rm) key ty v).2 ∧
    ((set (.expired st rm) key ty v).1).storage =
      ((set (.root st rm) key ty v).1).storage := by
  refine ⟨rfl, rfl, ?_, ?_⟩ <;>
    cases hc : checkAndInsert st key ty <;>
      simp [set, hc, Blackboard.storage]

/-- Claim C6: ordinary writes never establish a type lock.  If no entry
along the key's resolution chain carries a locked type (the state of a key
whose type was never declared), then a write of any type succeeds, the
chain is still lock-free afterwards (so arbitrary sequences of writes at
differing types all succeed), and the key's locked type is still absent. -/
theorem C6_writes_never_lock : ∀ (bb : Blackboard) (key : String),
    unlockedAlong bb key = true → ∀ (ty : TypeId) (v : Nat),
    (set bb key ty v).2 = none ∧
    unlockedAlong (set bb key ty v).1 key = true ∧
    portType (set bb key ty v).1 key = none := by
  intro bb
  induction bb with
  | root st rm =>
    intro key h ty v
    simp only [unlockedAlong] at h
    obtain ⟨st1, hc, e, he, hlp⟩ := checkAndInsert_of_unlocked ty h
    simp [set, hc, unlockedAlong, entryUnlocked, portType,
      Blackboard.storage, lookupKey_updateValue_self, he, hlp]
  | expired st rm =>
    intro key h ty v
    simp only [unlockedAlong] at h
    obtain ⟨st1, hc, e, he, hlp⟩ := checkAndInsert_of_unlocked ty h
    simp [set, hc, unlockedAlong, entryUnlocked, portType,
      Blackboard.storage, lookupKey_updateValue_self, he, hlp]
  | child st rm p ih =>
    intro key h ty v
    simp only [unlockedAlong, Bool.and_eq_true] at h
    obtain ⟨st1, hc, e, he, hlp⟩ := checkAndInsert_of_unlocked ty h.1
    cases hr : lookupKey key rm with
    | some ext =>
      rw [hr] at h
      have ihp := ih ext h.2 ty v
      simp [set, hc, hr, unlockedAlong, entryUnlocked, portType,
        Blackboard.storage, he, hlp, ihp.1, ihp.2.1]
    | none =>
      simp [set, hc, hr, unlockedAlong, entryUnlocked, portType,
        Blackboard.storage, lookupKey_updateValue_self, he, hlp]

/-- Claim C6, witness: on a fresh root store, a write at type `0` and then
a write at the different type `1` both succeed and leave the key
unlocked. -/
theorem C6_witness :
    (set ((set (Blackboard.root [] []) "k" 0 1).1) "k" 1 2).2 = none ∧
    unlockedAlong (set ((set (Blackboard.root [] []) "k" 0 1).1) "k" 1 2).1
      "k" = true ∧
    portType (set ((set (Blackboard.root [] []) "k" 0 1).1) "k" 1 2).1 "k" =
      none :=
  C6_writes_never_lock ((set (Blackboard.root [] []) "k" 0 1).1) "k"
    (by decide) 1 2

/-- Claim C7: round-trip.  For every key that is not remapped (or whose
store has no live parent), a successful `set` at type `ty` followed by a
typed `get` at `ty` returns the written value with `found = true`. -/
theorem C7_round_trip (bb : Blackboard) (key : String) (ty : TypeId)
    (v : Nat)
    (hnr : bb.lockParent = none ∨ lookupKey key bb.remap = none)
    (hok : (set bb key ty v).2 = none) :
    get ((set bb key ty v).1) key ty = .ok (some v) := by
  cases hnr with
  | inl h => exact set_get bb key ty v hok
  | inr h => exact set_get bb key ty v hok

/-- Claim C7, witness at a concrete root store. -/
theorem C7_witness :
    get ((set (Blackboard.root [] []) "key" 3 42).1) "key" 3 =
      .ok (some 42) :=
  C7_round_trip (.root [] []) "key" 3 42 (Or.inl rfl) rfl

/-- Claim C8: for a key on which nothing was ever written or declared
(no entry exists for it locally nor anywhere along its remap-resolution
chain), `portType` returns `none` and the non-throwing `get` reports
`found = false` without raising; moreover `portType` never fails for any
key — it is a total function returning the local entry's locked type, or
`none` when the key is unknown. -/
theorem C8_unknown_key (bb : Blackboard) (key : String) (ty : TypeId) :
    (untouched bb key = true →
      portType bb key = none ∧ get bb key ty = .ok none) ∧
    (lookupKey key bb.storage = none → portType bb key = none) ∧
    (∀ e, lookupKey key bb.storage = some e →
      portType bb key = e.locked_port_type) := by
  refine ⟨?_, ?_, ?_⟩
  · intro h
    have hloc := untouched_local h
    have hg := untouched_getAny bb key h
    exact ⟨by simp [portType, hloc], by simp [get, hg]⟩
  · intro h; simp [portType, h]
  · intro e he; simp [portType, he]

/-- Claim C8, witness at a fresh root store. -/
theorem C8_witness :
    portType (Blackboard.root [] []) "foo" = none ∧
    get (Blackboard.root [] []) "foo" 0 = .ok none :=
  (C8_unknown_key (.root [] []) "foo" 0).1 (by decide)

/-- Claim C9: the throwing getter raises the missing-key error exactly when
no entry resolves for the key (the non-throwing `get` reports
`found = false`); when an entry exists it propagates a cast failure of the
value container unchanged, and returns the cast value otherwise. -/
theorem C9_getOrFail_spec (bb : Blackboard) (key : String) (ty : TypeId) :
    (getOrFail bb key ty = .error .missingKey ↔ getAny bb key = none) ∧
    (∀ a e, getAny bb key = some a → a.cast ty = .error e →
      getOrFail bb key ty = .error e) ∧
    (∀ a v, getAny bb key = some a → a.cast ty = .ok v →
      getOrFail bb key ty = .ok v) := by
  refine ⟨⟨?_, ?_⟩, ?_, ?_⟩
  · intro h
    cases hg : getAny bb key with
    | none => rfl
    | some a =>
      cases hc : a.cast ty with
      | ok v => simp [getOrFail, get, hg, hc] at h
      | error e =>
        simp [getOrFail, get, hg, hc] at h
        exact absurd h (cast_error_ne_missingKey hc)
  · intro h
    simp [getOrFail, get, h]
  · intro a e hg hc
    simp [getOrFail, get, hg, hc]
  · intro a v hg hc
    simp [getOrFail, get, hg, hc]

/-- Claim C9, witness: missing key on an empty store; successful cast and
propagated cast mismatch on a store holding a value of type id `1`. -/
theorem C9_witness :
    getOrFail (Blackboard.root [] []) "k" 0 = .error .missingKey ∧
    getOrFail (Blackboard.root [("k", ⟨⟨some (0, 7)⟩, none⟩)] []) "k" 0 =
      .ok 7 ∧
    getOrFail (Blackboard.root [("k", ⟨⟨some (1, 7)⟩, none⟩)] []) "k" 0 =
      .error (.castMismatch (some 1) 0) :=
  ⟨(C9_getOrFail_spec (.root [] []) "k" 0).1.mpr rfl,
    (C9_getOrFail_spec (.root [("k", ⟨⟨some (0, 7)⟩, none⟩)] []) "k" 0).2.2
      ⟨some (0, 7)⟩ 7 rfl rfl,
    (C9_getOrFail_spec (.root [("k", ⟨⟨some (1, 7)⟩, none⟩)] []) "k" 0).2.1
      ⟨some (1, 7)⟩ (.castMismatch (some 1) 0) rfl rfl⟩

/-- Claim C10: `setPortType` and `portType` never perform remap routing.
For a store with a live parent and a key present in the remap table,
`portType` agrees with a root store holding the same local tables, and
`setPortType` leaves the parent and the remap table untouched, changing the
local storage exactly as the root store would and raising the same error if
any. -/
theorem C10_declare_query_local (st : List (String × Entry))
    (rm : List (String × String)) (p : Blackboard) (key ext : String)
    (ty : TypeId) (hr : lookupKey key rm = some ext) :
    portType (.child st rm p) key = portType (.root st rm) key ∧
    ∃ st', (setPortType (.child st rm p) key ty).1 = .child st' rm p ∧
      (setPortType (.root st rm) key ty).1 = .root st' rm ∧
      (setPortType (.child st rm p) key ty).2 =
        (setPortType (.root st rm) key ty).2 := by
  refine ⟨rfl, ?_⟩
  cases hl : lookupKey key st with
  | none =>
    exact ⟨st ++ [(key, { locked_port_type := some ty })],
      by simp [setPortType, Blackboard.storage, Blackboard.withStorage, hl],
      by simp [setPortType, Blackboard.storage, Blackboard.withStorage, hl],
      by simp [setPortType, Blackboard.storage, hl]⟩
  | some e =>
    refine ⟨st, ?_, ?_, ?_⟩ <;>
      cases hlp : e.locked_port_type <;>
        simp [setPortType, Blackboard.storage, Blackboard.withStorage,
          hl, hlp] <;>
          split <;> rfl

/-- Claim C10, witness: a child whose parent holds a locked entry for the
remap target; declaring the remapped key acts locally only. -/
theorem C10_witness :
    portType (Blackboard.child [] [("a", "b")]
        (.root [("b", ⟨Any.empty, some 3⟩)] [])) "a" =
      portType (Blackboard.root [] [("a", "b")]) "a" ∧
    ∃ st', (setPortType (Blackboard.child [] [("a", "b")]
        (.root [("b", ⟨Any.empty, some 3⟩)] [])) "a" 5).1 =
        .child st' [("a", "b")] (.root [("b", ⟨Any.empty, some 3⟩)] []) ∧
      (setPortType (Blackboard.root [] [("a", "b")]) "a" 5).1 =
        .root st' [("a", "b")] ∧
      (setPortType (Blackboard.child [] [("a", "b")]
          (.root [("b", ⟨Any.empty, some 3⟩)] [])) "a" 5).2 =
        (setPortType (Blackboard.root [] [("a", "b")]) "a" 5).2 :=
  C10_declare_query_local [] [("a", "b")]
    (.root [("b", ⟨Any.empty, some 3⟩)] []) "a" "b" 5 (by decide)

end BT
